import Mathlib

/-!
# Verification of `apps/ble_temp_sensor/src/main.c`

Shallow embedding of the BLE temperature-sensor application:
a periodic sampler task that fills a 10-entry buffer and reports it when
full (`task1_handler`), a GAP event handler driving the advertising /
connection lifecycle (`ble_temp_gap_event`, `ble_temp_advertise`,
`on_sync`) and the startup sequence (`main`).

External collaborators (the NimBLE stack, the Mynewt scheduler, the
temperature driver) are modelled at their interface boundary: stack calls
are parameterised by the return code the stack would produce, sensor reads
become an input stream of samples, and log statements become an explicit
list of emitted messages.
-/

namespace BleTempSensor

/-- Log messages emitted by the application, one constructor per `LOG`
call site in `main.c`. -/
inductive LogMsg : Type where
  /-- log line "connection %s; status=%d" -/
  | connectionStatus (status : Int)
  /-- log line "disconnect; reason=%d" -/
  | disconnectReason (reason : Int)
  /-- log line "adv complete" -/
  | advCompleteMsg
  /-- log line "mtu update event; conn_handle=%d mtu=%d" -/
  | mtuUpdate (connHandle mtuValue : Nat)
  /-- log line "buffer full" -/
  | bufferFull
  /-- log line "%x" (one buffered temperature reading) -/
  | sampleValue (v : Int)
  /-- log line "error setting advertisement data; rc=%d" -/
  | errSetAdvData (rc : Int)
  /-- log line "error enabling advertisement; rc=%d" -/
  | errEnableAdv (rc : Int)
  /-- log line "adv started" -/
  | advStarted
  /-- log line "hello" -/
  | hello
  deriving DecidableEq, Repr

/-! ## Advertisement payload (`ble_temp_advertise`, lines 63–114) -/

/-- the C global `static const char *device_name = "Andrew_temp_sensor";` -/
def device_name : String := "Andrew_temp_sensor"

/-- Flag `BLE_HS_ADV_F_DISC_GEN` (NimBLE `ble_hs_adv.h`): general discoverability
flag of the Flags AD field. -/
def BLE_HS_ADV_F_DISC_GEN : Nat := 0x02

/-- Flag `BLE_HS_ADV_F_BREDR_UNSUP` (NimBLE `ble_hs_adv.h`): BR/EDR (legacy link
type) unsupported flag of the Flags AD field. -/
def BLE_HS_ADV_F_BREDR_UNSUP : Nat := 0x04

/-- Sentinel `BLE_HS_ADV_TX_PWR_LVL_AUTO` (NimBLE `ble_hs_adv.h`), telling
the stack to fill the tx-power-level field automatically. -/
def BLE_HS_ADV_TX_PWR_LVL_AUTO : Int := -128

/-- The fields of `struct ble_hs_adv_fields` that `ble_temp_advertise`
assigns after the `memset(&fields, 0, sizeof(fields))`; every other member
of the C struct stays zero (absent). -/
structure BleHsAdvFields where
  flags : Nat
  tx_pwr_lvl_is_present : Bool
  tx_pwr_lvl : Int
  name : String
  name_len : Nat
  name_is_complete : Bool
  deriving DecidableEq, Repr

/-- The advertisement payload assembled by `ble_temp_advertise`
(lines 76–96). -/
def advFields : BleHsAdvFields :=
  { flags := BLE_HS_ADV_F_DISC_GEN ||| BLE_HS_ADV_F_BREDR_UNSUP
    tx_pwr_lvl_is_present := true
    tx_pwr_lvl := BLE_HS_ADV_TX_PWR_LVL_AUTO
    name := device_name
    name_len := device_name.length
    name_is_complete := true }

/-- What one call to `ble_temp_advertise` did: the payload it passed to
`ble_gap_adv_set_fields`, whether it reached the `ble_gap_adv_start` call,
the errors it logged, and whether advertising is actually running when it
returns. -/
structure AdvResult where
  fieldsSet : BleHsAdvFields
  advStartCalled : Bool
  logs : List LogMsg
  started : Bool
  deriving DecidableEq, Repr

/-- Function `ble_temp_advertise` (lines 63–114), parameterised by the return codes
of the two stack calls `ble_gap_adv_set_fields` and `ble_gap_adv_start`.
On a non-zero return code the function logs and returns at once; it never
loops or retries, and it stores to no variable outside its own frame. -/
def ble_temp_advertise (rcSetFields rcAdvStart : Int) : AdvResult :=
  if rcSetFields ≠ 0 then
    { fieldsSet := advFields
      advStartCalled := false
      logs := [LogMsg.errSetAdvData rcSetFields]
      started := false }
  else if rcAdvStart ≠ 0 then
    { fieldsSet := advFields
      advStartCalled := true
      logs := [LogMsg.errEnableAdv rcAdvStart]
      started := false }
  else
    { fieldsSet := advFields
      advStartCalled := true
      logs := []
      started := true }

/-! ## GAP event handler (`ble_temp_gap_event`, lines 117–155) -/

/-- GAP events delivered to `ble_temp_gap_event`.  The four handled tags
mirror the `case` labels of the `switch`; `other` stands for every event
type the `switch` has no case for (its numeric tag is carried along). -/
inductive GapEvent : Type where
  | connect (status : Int)
  | disconnect (reason : Int)
  | advComplete
  | mtu (connHandle mtuValue : Nat)
  | other (eventType : Nat)
  deriving DecidableEq, Repr

/-- What one call to `ble_temp_gap_event` did: the returned `int`, whether
it invoked `ble_temp_advertise`, and the log messages it emitted itself. -/
structure GapHandlerResult where
  rc : Int
  advertiseCalled : Bool
  logs : List LogMsg
  deriving DecidableEq, Repr

/-- Function `ble_temp_gap_event` (lines 117–155), transcribed case by case from
the `switch`.  Events without a `case` label fall through to `return 0`. -/
def ble_temp_gap_event : GapEvent → GapHandlerResult
  | GapEvent.connect status =>
      { rc := 0
        advertiseCalled := status ≠ 0
        logs := [LogMsg.connectionStatus status] }
  | GapEvent.disconnect reason =>
      { rc := 0
        advertiseCalled := true
        logs := [LogMsg.disconnectReason reason] }
  | GapEvent.advComplete =>
      { rc := 0
        advertiseCalled := true
        logs := [LogMsg.advCompleteMsg] }
  | GapEvent.mtu connHandle mtuValue =>
      { rc := 0
        advertiseCalled := false
        logs := [LogMsg.mtuUpdate connHandle mtuValue] }
  | GapEvent.other _ =>
      { rc := 0
        advertiseCalled := false
        logs := [] }

/-! ## Connection state machine

`main.c` keeps no explicit state variable: the connection state lives in
the stack.  We track the spec's `ConnectionState` abstraction: an event
first has the stack's own effect on the link (a successful connect
establishes a connection, a disconnect / failed connect / finished
advertisement leaves the link down), and then, whenever the handler
reacted by calling `ble_temp_advertise`, the device is advertising
again. -/

/-- The spec's `ConnectionState`. -/
inductive ConnState : Type where
  | Idle
  | Advertising
  | Connected
  deriving DecidableEq, Repr

/-- Modelled from the spec: the protocol stack's own effect of a delivered
event on the link state, before the handler reacts (spec §4.2, §6 — the
stack is an external collaborator, absent from `src/`).  A successful
connect establishes the connection; a failed connect, a disconnect or a
completed advertisement leaves the device neither advertising nor
connected; an MTU update or an unhandled event changes nothing. -/
def stackEffect (s : ConnState) : GapEvent → ConnState
  | GapEvent.connect status => if status = 0 then ConnState.Connected else ConnState.Idle
  | GapEvent.disconnect _ => ConnState.Idle
  | GapEvent.advComplete => ConnState.Idle
  | GapEvent.mtu _ _ => s
  | GapEvent.other _ => s

/-- One delivered GAP event: the stack's effect followed by the handler's
reaction — if `ble_temp_gap_event` called `ble_temp_advertise`, the device
is advertising when the handler returns. -/
def stepGap (s : ConnState) (e : GapEvent) : ConnState :=
  if (ble_temp_gap_event e).advertiseCalled then ConnState.Advertising
  else stackEffect s e

/-- Modelled from the spec: which events the stack can deliver in which
state (spec §6 — event delivery is the stack's, absent from `src/`).
`ble_temp_gap_event` is registered as the callback of `ble_gap_adv_start`,
so nothing is delivered while `Idle`; connect results and
advertising-complete arrive out of advertising, disconnects and MTU
updates out of a connection, other events out of either active state. -/
def Deliverable : ConnState → GapEvent → Bool
  | ConnState.Advertising, GapEvent.connect _ => true
  | ConnState.Advertising, GapEvent.advComplete => true
  | ConnState.Advertising, GapEvent.other _ => true
  | ConnState.Connected, GapEvent.disconnect _ => true
  | ConnState.Connected, GapEvent.mtu _ _ => true
  | ConnState.Connected, GapEvent.other _ => true
  | _, _ => false

/-- Folding a whole event sequence through the handler. -/
def runGap (s : ConnState) (es : List GapEvent) : ConnState :=
  es.foldl stepGap s

/-! ## Startup (`on_sync`, lines 157–170, and `main`, lines 231–266) -/

/-- Outcome of `on_sync`, parameterised by the return code of
`ble_hs_id_infer_auto` and those of the stack calls inside
`ble_temp_advertise`. -/
inductive OnSyncOutcome : Type where
  /-- the `assert(rc == 0)` fired on `ble_hs_id_infer_auto`'s result. -/
  | assertInferFailed (rc : Int)
  /-- identity inferred; `ble_temp_advertise` ran, then "adv started"
  was logged. -/
  | advertised (r : AdvResult) (log : LogMsg)
  deriving DecidableEq, Repr

/-- Function `on_sync` (lines 157–170). -/
def on_sync (rcInfer rcSetFields rcAdvStart : Int) : OnSyncOutcome :=
  if rcInfer ≠ 0 then OnSyncOutcome.assertInferFailed rcInfer
  else OnSyncOutcome.advertised (ble_temp_advertise rcSetFields rcAdvStart)
        LogMsg.advStarted

/-- Outcome of `main`'s startup sequence, parameterised by the return
codes of `gatt_svr_init` and `ble_svc_gap_device_name_set`. -/
inductive MainOutcome : Type where
  /-- the `assert(rc == 0)` fired on `gatt_svr_init`'s result. -/
  | assertGattInitFailed (rc : Int)
  /-- the `assert(rc == 0)` fired on `ble_svc_gap_device_name_set`'s result. -/
  | assertNameSetFailed (rc : Int)
  /-- startup completed; `main` is in its `os_eventq_run` forever-loop. -/
  | runningEventLoop
  deriving DecidableEq, Repr

/-- Function `main` (lines 231–266) after the unconditional initialisation calls:
`gatt_svr_init` is checked first, then `ble_svc_gap_device_name_set`;
each non-zero result stops the program at its `assert`. -/
def mainStartup (rcGattInit rcNameSet : Int) : MainOutcome :=
  if rcGattInit ≠ 0 then MainOutcome.assertGattInitFailed rcGattInit
  else if rcNameSet ≠ 0 then MainOutcome.assertNameSetFailed rcNameSet
  else MainOutcome.runningEventLoop

/-! ## Sampler task (`task1_handler`, lines 174–201) -/

/-- the constant `#define TEMPERATURE_READINGS_BUFFER_SIZE 10` -/
def TEMPERATURE_READINGS_BUFFER_SIZE : Nat := 10

/-- the constant `static const uint32_t TEMPERATURE_PERIOD = 100;` (ms between
temperature readings). -/
def TEMPERATURE_PERIOD : Nat := 100

/-- The sampler task's persistent (function-`static`) state:
`temperature_readings` (an `int16_t[10]`, zero-initialised) and
`temperature_readings_index` (a `uint8_t`, starting at 0).  Both are
local to `task1_handler`; no other function can name them. -/
structure SamplerState where
  readings : List Int
  index : Nat
  deriving DecidableEq, Repr

/-- The state on entry to `task1_handler`: a zeroed array of 10 readings,
index 0. -/
def initSampler : SamplerState :=
  { readings := List.replicate TEMPERATURE_READINGS_BUFFER_SIZE 0
    index := 0 }

/-- What one loop iteration of `task1_handler` did. -/
structure TickResult where
  state : SamplerState
  /-- holds the 10 surfaced readings when the buffer-full branch ran. -/
  report : Option (List Int)
  logs : List LogMsg
  /-- the duration handed to `os_time_ms_to_ticks` / `os_time_delay`. -/
  delayRequestMs : Nat
  deriving DecidableEq, Repr

/-- One iteration of the `while (1)` loop of `task1_handler`
(lines 180–200).  `sample` is the value `get_temp_measurement()` returned
this tick.  The stored sample overwrites slot `index`; the `uint8_t`
increment wraps at 256; when the incremented index equals the buffer size
the full buffer is logged (slot 0 first) and the index is reset to 0; the
iteration always ends by requesting a delay of `TEMPERATURE_PERIOD` ms. -/
def tick (sample : Int) (s : SamplerState) : TickResult :=
  let readings := s.readings.set s.index sample
  let index := (s.index + 1) % 256
  if index = TEMPERATURE_READINGS_BUFFER_SIZE then
    { state := { readings := readings, index := 0 }
      report := some readings
      logs := LogMsg.bufferFull :: readings.map LogMsg.sampleValue
      delayRequestMs := TEMPERATURE_PERIOD }
  else
    { state := { readings := readings, index := index }
      report := none
      logs := []
      delayRequestMs := TEMPERATURE_PERIOD }

/-- Running the sampler over a stream of sensor values, collecting the
per-tick report slot (`none` when the buffer-full branch did not run). -/
def runSampler : SamplerState → List Int →
    SamplerState × List (Option (List Int))
  | s, [] => (s, [])
  | s, x :: rest =>
      ((runSampler (tick x s).state rest).fst,
       (tick x s).report :: (runSampler (tick x s).state rest).snd)

/-- The consecutive complete blocks of `n` elements of a list, in order;
a trailing incomplete block is not produced. -/
def fullChunks (n : Nat) (xs : List Int) : List (List Int) :=
  if h : n = 0 ∨ xs.length < n then []
  else xs.take n :: fullChunks n (xs.drop n)
termination_by xs.length
decreasing_by
  push_neg at h
  simp only [List.length_drop]
  omega

/-- The whole system state the two tasks touch: the connection state owned
by the event callbacks and the sampler state owned by `task1_handler`. -/
structure SysState where
  conn : ConnState
  sampler : SamplerState
  deriving DecidableEq, Repr

/-- Effect of one delivered GAP event on the whole system state: the
event callback can only reach the connection state — the sampler's
buffer and index are `static` locals of `task1_handler`, invisible to
`ble_temp_gap_event`. -/
def sysStepGap (st : SysState) (e : GapEvent) : SysState :=
  { conn := stepGap st.conn e, sampler := st.sampler }

end BleTempSensor

/-! ## Helper lemmas about the sampler -/

namespace BleTempSensor

/-- Setting slot `k` and then taking `k + 1` elements appends the new
value to the first `k` elements. -/
theorem take_succ_set (l : List Int) (k : Nat) (x : Int) (hk : k < l.length) :
    (l.set k x).take (k + 1) = l.take k ++ [x] := by
  induction l generalizing k with
  | nil => simp at hk
  | cons a t ih =>
      cases k with
      | zero => simp
      | succ k =>
          simp only [List.set, List.take, List.cons_append, List.cons.injEq,
            true_and]
          exact ih k (by simpa using hk)

/-- Setting the last slot of a list rewrites it as first part plus the new
value. -/
theorem set_at_end (l : List Int) (k : Nat) (x : Int) (h : l.length = k + 1) :
    l.set k x = l.take k ++ [x] := by
  have hk : k < l.length := by omega
  rw [List.set_eq_take_cons_drop x hk]
  have : l.drop (k + 1) = [] := by
    rw [List.drop_eq_nil_iff]
    omega
  rw [this]

/-- Chunking a list shorter than one block yields nothing. -/
theorem fullChunks_small (n : Nat) (xs : List Int) (h : xs.length < n) :
    fullChunks n xs = [] := by
  unfold fullChunks
  rw [dif_pos (Or.inr h)]

/-- Prepending one complete block to a list prepends one chunk. -/
theorem fullChunks_block (n : Nat) (c ys : List Int) (hc : c.length = n)
    (hn : 0 < n) :
    fullChunks n (c ++ ys) = c :: fullChunks n ys := by
  have hno : ¬(n = 0 ∨ (c ++ ys).length < n) := by
    push_neg
    refine ⟨by omega, by simp [hc]⟩
  rw [fullChunks, dif_neg hno, ← hc, List.take_left, List.drop_left]

/-- The concatenation of the chunks is an initial segment of the input. -/
theorem fullChunks_flatten_initial (n : Nat) (xs : List Int) :
    (fullChunks n xs).flatten <+: xs := by
  by_cases h : n = 0 ∨ xs.length < n
  · rw [fullChunks, dif_pos h]
    exact List.nil_prefix
  · rw [fullChunks, dif_neg h]
    push_neg at h
    obtain ⟨t, ht⟩ := fullChunks_flatten_initial n (xs.drop n)
    refine ⟨t, ?_⟩
    rw [List.flatten_cons, List.append_assoc, ht, List.take_append_drop]
termination_by xs.length
decreasing_by
  push_neg at h
  simp only [List.length_drop]
  omega

/-- Every chunk has exactly `n` elements. -/
theorem fullChunks_mem_length (n : Nat) (xs c : List Int)
    (hc : c ∈ fullChunks n xs) : c.length = n := by
  by_cases h : n = 0 ∨ xs.length < n
  · rw [fullChunks, dif_pos h] at hc
    simp at hc
  · rw [fullChunks, dif_neg h] at hc
    push_neg at h
    rcases List.mem_cons.mp hc with rfl | hm
    · simp only [List.length_take]
      omega
    · exact fullChunks_mem_length n (xs.drop n) c hm
termination_by xs.length
decreasing_by
  push_neg at h
  simp only [List.length_drop]
  omega

/-- A tick that does not fill the buffer: slot `index` is overwritten, the
index advances by one, no report. -/
theorem tick_no_flush (v : Int) (s : SamplerState) (h1 : s.index + 1 < 10) :
    tick v s =
      { state := { readings := s.readings.set s.index v
                   index := s.index + 1 }
        report := none
        logs := []
        delayRequestMs := TEMPERATURE_PERIOD } := by
  have hm : (s.index + 1) % 256 = s.index + 1 := Nat.mod_eq_of_lt (by omega)
  simp only [tick, hm, TEMPERATURE_READINGS_BUFFER_SIZE]
  rw [if_neg (by omega)]

/-- The tenth tick since the last flush: slot 9 is overwritten, the full
buffer is reported and logged, the index resets to 0. -/
theorem tick_flush (v : Int) (s : SamplerState) (h1 : s.index = 9) :
    tick v s =
      { state := { readings := s.readings.set 9 v, index := 0 }
        report := some (s.readings.set 9 v)
        logs := LogMsg.bufferFull ::
          (s.readings.set 9 v).map LogMsg.sampleValue
        delayRequestMs := TEMPERATURE_PERIOD } := by
  simp [tick, h1, TEMPERATURE_READINGS_BUFFER_SIZE]

/-- Master characterisation of the sampler loop from any well-formed state
(`index < 10`, ten slots): the final index is the tick count added to the
starting index, mod 10; the buffer keeps ten slots; one output slot per
tick; the reports are exactly the complete 10-blocks of the pending
samples (the `index` already-buffered ones) followed by the new ones; a
tick reports exactly when it brings the count since the last flush to
10. -/
theorem runSampler_spec (xs : List Int) : ∀ s : SamplerState,
    s.index < 10 → s.readings.length = 10 →
    (runSampler s xs).fst.index = (s.index + xs.length) % 10 ∧
    (runSampler s xs).fst.readings.length = 10 ∧
    (runSampler s xs).snd.length = xs.length ∧
    (runSampler s xs).snd.reduceOption =
      fullChunks 10 (s.readings.take s.index ++ xs) ∧
    (∀ i, i < (runSampler s xs).snd.length →
      (((runSampler s xs).snd.getD i none).isSome = true ↔
        (s.index + i + 1) % 10 = 0)) := by
  induction xs with
  | nil =>
      intro s h1 h2
      refine ⟨?_, h2, rfl, ?_, ?_⟩
      · simp [runSampler, Nat.mod_eq_of_lt h1]
      · rw [List.append_nil, fullChunks_small]
        · rfl
        · simp only [List.length_take]
          omega
      · intro i hi
        simp [runSampler] at hi
  | cons x rest ih =>
      intro s h1 h2
      have hrw : runSampler s (x :: rest) =
          ((runSampler (tick x s).state rest).fst,
           (tick x s).report :: (runSampler (tick x s).state rest).snd) := rfl
      by_cases h9 : s.index = 9
      · -- flush tick
        have ht := tick_flush x s h9
        rw [hrw, ht]
        dsimp only
        obtain ⟨ihIdx, ihLen, ihOuts, ihRep, ihSome⟩ :=
          ih { readings := s.readings.set 9 x, index := 0 }
            (by dsimp only; omega) (by simp [h2])
        refine ⟨?_, ihLen, ?_, ?_, ?_⟩
        · rw [ihIdx]
          dsimp only
          simp only [List.length_cons]
          omega
        · simp only [List.length_cons, ihOuts]
        · rw [List.reduceOption_cons_of_some, ihRep]
          dsimp only
          simp only [List.take_zero, List.nil_append]
          rw [h9, set_at_end s.readings 9 x (by omega)]
          have hsplit : s.readings.take 9 ++ x :: rest =
              (s.readings.take 9 ++ [x]) ++ rest := by
            simp
          rw [hsplit, fullChunks_block 10 (s.readings.take 9 ++ [x]) rest
            (by simp only [List.length_append, List.length_take,
                  List.length_cons, List.length_nil, h2]
                omega)
            (by omega)]
        · intro i hi
          cases i with
          | zero => simp [h9]
          | succ j =>
              simp only [List.getD_cons_succ]
              simp only [List.length_cons] at hi
              refine (ihSome j (by omega)).trans ?_
              dsimp only
              rw [h9]
              constructor <;> intro <;> omega
      · -- ordinary tick
        have hlt : s.index + 1 < 10 := by omega
        have ht := tick_no_flush x s hlt
        rw [hrw, ht]
        dsimp only
        obtain ⟨ihIdx, ihLen, ihOuts, ihRep, ihSome⟩ :=
          ih { readings := s.readings.set s.index x, index := s.index + 1 }
            (by dsimp only; omega) (by simp [h2])
        refine ⟨?_, ihLen, ?_, ?_, ?_⟩
        · rw [ihIdx]
          dsimp only
          simp only [List.length_cons]
          omega
        · simp only [List.length_cons, ihOuts]
        · rw [List.reduceOption_cons_of_none, ihRep]
          dsimp only
          rw [take_succ_set s.readings s.index x (by omega)]
          simp
        · intro i hi
          cases i with
          | zero =>
              simp only [List.getD_cons_zero, Option.isSome_none,
                Bool.false_eq_true, false_iff]
              omega
          | succ j =>
              simp only [List.getD_cons_succ]
              simp only [List.length_cons] at hi
              refine (ihSome j (by omega)).trans ?_
              dsimp only
              constructor <;> intro <;> omega

end BleTempSensor

/-! ## Theorems -/

namespace BleTempSensor

/-- C2: for every event sequence delivered to the GAP event handler that
ends in a Disconnect event or an Advertising-complete event, the resulting
connection state is `Advertising` (a new advertise call is issued by the
handler on that last event); the machine never ends in `Idle` and is never
stuck in `Connected` after such an event. -/
theorem gap_recovers_to_advertising (s : ConnState) (es : List GapEvent)
    (e : GapEvent)
    (h : (∃ r, e = GapEvent.disconnect r) ∨ e = GapEvent.advComplete) :
    runGap s (es ++ [e]) = ConnState.Advertising ∧
    (ble_temp_gap_event e).advertiseCalled = true ∧
    runGap s (es ++ [e]) ≠ ConnState.Idle ∧
    runGap s (es ++ [e]) ≠ ConnState.Connected := by
  have key : runGap s (es ++ [e]) = stepGap (runGap s es) e := by
    simp [runGap, List.foldl_append]
  rcases h with ⟨r, rfl⟩ | rfl <;>
    simp [key, stepGap, ble_temp_gap_event]

/-- Witness for C2: a concrete two-event run (connect succeeded, then
disconnect) ends in `Advertising`. -/
theorem gap_recovers_to_advertising_witness :
    runGap ConnState.Advertising
        ([GapEvent.connect 0] ++ [GapEvent.disconnect 19]) =
      ConnState.Advertising ∧
    (ble_temp_gap_event (GapEvent.disconnect 19)).advertiseCalled = true ∧
    runGap ConnState.Advertising
        ([GapEvent.connect 0] ++ [GapEvent.disconnect 19]) ≠ ConnState.Idle ∧
    runGap ConnState.Advertising
        ([GapEvent.connect 0] ++ [GapEvent.disconnect 19]) ≠
      ConnState.Connected :=
  gap_recovers_to_advertising ConnState.Advertising [GapEvent.connect 0]
    (GapEvent.disconnect 19) (Or.inl ⟨19, rfl⟩)

/-- C4: an MTU-update event received while `Connected` changes nothing but
the log: the state stays `Connected`, no advertise call is made, the only
output is the diagnostic log line, and the sampler's buffer state is
untouched. -/
theorem mtu_event_is_noop (h v : Nat) (s : SamplerState) :
    stepGap ConnState.Connected (GapEvent.mtu h v) = ConnState.Connected ∧
    (ble_temp_gap_event (GapEvent.mtu h v)).advertiseCalled = false ∧
    (ble_temp_gap_event (GapEvent.mtu h v)).logs = [LogMsg.mtuUpdate h v] ∧
    sysStepGap ⟨ConnState.Connected, s⟩ (GapEvent.mtu h v) =
      ⟨ConnState.Connected, s⟩ := by
  refine ⟨?_, rfl, rfl, ?_⟩ <;>
    simp [stepGap, sysStepGap, stackEffect, ble_temp_gap_event]

/-- C5: when `ble_gap_adv_set_fields` or `ble_gap_adv_start` fails,
`ble_temp_advertise` logs exactly one error and returns with no retry;
on a field-set failure `ble_gap_adv_start` is never reached; a new attempt
happens only because a later disconnect or adv-complete event calls
`ble_temp_advertise` again. -/
theorem advertise_failure_no_retry (rcSet rcStart : Int) :
    (rcSet ≠ 0 →
      ble_temp_advertise rcSet rcStart =
        { fieldsSet := advFields
          advStartCalled := false
          logs := [LogMsg.errSetAdvData rcSet]
          started := false }) ∧
    (rcSet = 0 → rcStart ≠ 0 →
      ble_temp_advertise rcSet rcStart =
        { fieldsSet := advFields
          advStartCalled := true
          logs := [LogMsg.errEnableAdv rcStart]
          started := false }) ∧
    (∀ r : Int, (ble_temp_gap_event (GapEvent.disconnect r)).advertiseCalled
      = true) ∧
    (ble_temp_gap_event GapEvent.advComplete).advertiseCalled = true := by
  refine ⟨fun h1 => ?_, fun h1 h2 => ?_, fun r => rfl, rfl⟩
  · simp [ble_temp_advertise, h1]
  · simp [ble_temp_advertise, h1, h2]

/-- Witness for C5: with a failing field-set call (rc = 1), advertising is
not started and the single error log is emitted. -/
theorem advertise_failure_no_retry_witness :
    ble_temp_advertise 1 0 =
      { fieldsSet := advFields
        advStartCalled := false
        logs := [LogMsg.errSetAdvData 1]
        started := false } :=
  (advertise_failure_no_retry 1 0).1 (by decide)

/-- C6: every advertisement payload assembled by `ble_temp_advertise`
carries exactly the general-discoverability and BR/EDR-unsupported flags,
a transmit-power field marked present with the automatic-fill sentinel,
and the configured device name at its full length, marked complete. -/
theorem adv_payload_contract (rcSet rcStart : Int) :
    (ble_temp_advertise rcSet rcStart).fieldsSet =
      { flags := BLE_HS_ADV_F_DISC_GEN ||| BLE_HS_ADV_F_BREDR_UNSUP
        tx_pwr_lvl_is_present := true
        tx_pwr_lvl := BLE_HS_ADV_TX_PWR_LVL_AUTO
        name := device_name
        name_len := device_name.length
        name_is_complete := true } ∧
    (ble_temp_advertise rcSet rcStart).fieldsSet.name_len =
      (ble_temp_advertise rcSet rcStart).fieldsSet.name.length := by
  have key : (ble_temp_advertise rcSet rcStart).fieldsSet = advFields := by
    by_cases h1 : rcSet = 0 <;> by_cases h2 : rcStart = 0 <;>
      simp [ble_temp_advertise, h1, h2]
  exact ⟨key, by simp [key, advFields]⟩

/-- C7: a non-zero result of identity inference halts `on_sync` at its
assert; a non-zero result of `gatt_svr_init` or of
`ble_svc_gap_device_name_set` halts `main` at the corresponding assert;
with zero results startup proceeds (to advertising, resp. to the event
loop) instead. -/
theorem startup_asserts_halt (rc : Int) (hrc : rc ≠ 0) :
    (∀ rcSet rcStart,
      on_sync rc rcSet rcStart = OnSyncOutcome.assertInferFailed rc) ∧
    (∀ rcName,
      mainStartup rc rcName = MainOutcome.assertGattInitFailed rc) ∧
    mainStartup 0 rc = MainOutcome.assertNameSetFailed rc ∧
    (∀ rcSet rcStart, on_sync 0 rcSet rcStart =
      OnSyncOutcome.advertised (ble_temp_advertise rcSet rcStart)
        LogMsg.advStarted) ∧
    mainStartup 0 0 = MainOutcome.runningEventLoop := by
  refine ⟨fun a b => ?_, fun a => ?_, ?_, fun a b => ?_, ?_⟩ <;>
    simp [on_sync, mainStartup, hrc]

/-- Witness for C7: a failing device-name set (rc = 1) stops `main` at the
name-set assert. -/
theorem startup_asserts_halt_witness :
    mainStartup 0 1 = MainOutcome.assertNameSetFailed 1 :=
  (startup_asserts_halt 1 (by decide)).2.2.1

/-- C8: every iteration of `task1_handler`'s loop ends by requesting a
delay of exactly `TEMPERATURE_PERIOD` = 100 ms from the scheduler,
unconditionally and identically on every iteration, regardless of the
sample read or the buffer state. -/
theorem sampler_fixed_period (v : Int) (s : SamplerState) :
    (tick v s).delayRequestMs = TEMPERATURE_PERIOD ∧
    TEMPERATURE_PERIOD = 100 ∧
    (∀ (w : Int) (t : SamplerState),
      (tick v s).delayRequestMs = (tick w t).delayRequestMs) := by
  have key : ∀ (w : Int) (t : SamplerState),
      (tick w t).delayRequestMs = TEMPERATURE_PERIOD := by
    intro w t
    simp only [tick]
    split <;> rfl
  exact ⟨key v s, rfl, fun w t => (key v s).trans (key w t).symm⟩

/-- C9: `ble_temp_gap_event` returns 0 for every event of any type, and an
event whose type has no `case` label (modelled by `GapEvent.other`) causes
no action at all: no advertise call, no log, no change of any state. -/
theorem gap_handler_rc_zero_default_noop :
    (∀ e : GapEvent, (ble_temp_gap_event e).rc = 0) ∧
    (∀ t : Nat,
      (ble_temp_gap_event (GapEvent.other t)).advertiseCalled = false ∧
      (ble_temp_gap_event (GapEvent.other t)).logs = [] ∧
      (∀ st : SysState, sysStepGap st (GapEvent.other t) = st)) := by
  constructor
  · intro e
    cases e <;> rfl
  · intro t
    refine ⟨rfl, rfl, fun st => ?_⟩
    cases st
    simp [sysStepGap, stepGap, ble_temp_gap_event, stackEffect]

end BleTempSensor

namespace BleTempSensor

/-- C1: starting from the zeroed buffer, for every sequence of sampler
ticks: between ticks `write_index` stays in 0..9 and equals the tick count
mod 10 (so it is always a valid insertion point); one output slot exists
per tick and the buffer-full report fires exactly on every 10th tick since
the last flush; the reports are exactly the consecutive 10-blocks of the
sampled values in insertion order, each of exactly 10 samples, and their
concatenation is an initial segment of the sample stream (no sample is
ever reported twice); immediately after a reporting tick the index is
back at 0. -/
theorem buffer_wrap_invariant (xs : List Int) :
    (∀ n : Nat,
      (runSampler initSampler (xs.take n)).fst.index <
        TEMPERATURE_READINGS_BUFFER_SIZE ∧
      (runSampler initSampler (xs.take n)).fst.index =
        (xs.take n).length % TEMPERATURE_READINGS_BUFFER_SIZE) ∧
    (runSampler initSampler xs).snd.length = xs.length ∧
    (runSampler initSampler xs).snd.reduceOption = fullChunks 10 xs ∧
    (∀ i, i < xs.length →
      ((((runSampler initSampler xs).snd.getD i none).isSome = true) ↔
        (i + 1) % 10 = 0)) ∧
    (runSampler initSampler xs).snd.reduceOption.flatten <+: xs ∧
    (∀ c ∈ (runSampler initSampler xs).snd.reduceOption, c.length = 10) ∧
    (∀ n : Nat, n + 1 ≤ xs.length → (n + 1) % 10 = 0 →
      (runSampler initSampler (xs.take (n + 1))).fst.index = 0) := by
  have hinit1 : initSampler.index < 10 := by
    simp [initSampler]
  have hinit2 : initSampler.readings.length = 10 := by
    simp [initSampler, TEMPERATURE_READINGS_BUFFER_SIZE]
  have hidx0 : initSampler.index = 0 := rfl
  obtain ⟨hIdx, hLen, hOuts, hRep, hSome⟩ :=
    runSampler_spec xs initSampler hinit1 hinit2
  rw [hidx0] at hRep hSome
  simp only [List.take_zero, List.nil_append, Nat.zero_add] at hRep hSome
  refine ⟨?_, hOuts, hRep, ?_, ?_, ?_, ?_⟩
  · intro n
    obtain ⟨hIdxn, _, _, _, _⟩ :=
      runSampler_spec (xs.take n) initSampler hinit1 hinit2
    rw [hidx0] at hIdxn
    simp only [TEMPERATURE_READINGS_BUFFER_SIZE]
    omega
  · intro i hi
    exact hSome i (by rw [hOuts]; exact hi)
  · rw [hRep]
    exact fullChunks_flatten_initial 10 xs
  · intro c hc
    rw [hRep] at hc
    exact fullChunks_mem_length 10 xs c hc
  · intro n hn1 hn2
    obtain ⟨hIdxn, _, _, _, _⟩ :=
      runSampler_spec (xs.take (n + 1)) initSampler hinit1 hinit2
    rw [hidx0] at hIdxn
    rw [List.length_take] at hIdxn
    omega

/-- Witness for C1: on the concrete sample stream 1..12 the 10th tick is
the one that reports, and the reports are exactly the first block of
ten. -/
theorem buffer_wrap_invariant_witness :
    ((((runSampler initSampler
        [1, 2, 3, 4, 5, 6, 7, 8, 9, 10, 11, 12]).snd.getD 9 none).isSome
          = true) ↔ (9 + 1) % 10 = 0) ∧
    (runSampler initSampler
        [1, 2, 3, 4, 5, 6, 7, 8, 9, 10, 11, 12]).snd.reduceOption =
      fullChunks 10 [1, 2, 3, 4, 5, 6, 7, 8, 9, 10, 11, 12] :=
  ⟨(buffer_wrap_invariant [1, 2, 3, 4, 5, 6, 7, 8, 9, 10, 11, 12]).2.2.2.1
      9 (by decide),
   (buffer_wrap_invariant [1, 2, 3, 4, 5, 6, 7, 8, 9, 10, 11, 12]).2.2.1⟩

/-- C3: `Connected` is entered only through a success-status Connect event
received in `Advertising`; no event at all is delivered while `Idle` (the
handler is registered only by `ble_gap_adv_start`), so in particular none
moves `Idle` directly to `Connected`; and a Connect event with non-zero
status leaves the machine in `Advertising` because the handler resumes
advertising. -/
theorem connected_entry_safety :
    (∀ (s : ConnState) (e : GapEvent), Deliverable s e = true →
      stepGap s e = ConnState.Connected → s ≠ ConnState.Connected →
      s = ConnState.Advertising ∧ e = GapEvent.connect 0) ∧
    (∀ e : GapEvent, Deliverable ConnState.Idle e = false) ∧
    (∀ st : Int, st ≠ 0 →
      stepGap ConnState.Advertising (GapEvent.connect st) =
        ConnState.Advertising ∧
      (ble_temp_gap_event (GapEvent.connect st)).advertiseCalled = true) := by
  refine ⟨?_, ?_, ?_⟩
  · intro s e hd hstep hs
    cases e with
    | connect status =>
        cases s with
        | Idle => simp [Deliverable] at hd
        | Connected => simp [Deliverable] at hd
        | Advertising =>
            by_cases hst : status = 0
            · exact ⟨rfl, by rw [hst]⟩
            · exfalso
              simp [stepGap, ble_temp_gap_event, hst] at hstep
    | disconnect r => simp [stepGap, ble_temp_gap_event] at hstep
    | advComplete => simp [stepGap, ble_temp_gap_event] at hstep
    | mtu a b =>
        simp [stepGap, ble_temp_gap_event, stackEffect] at hstep
        exact absurd hstep hs
    | other t =>
        simp [stepGap, ble_temp_gap_event, stackEffect] at hstep
        exact absurd hstep hs
  · intro e
    cases e <;> rfl
  · intro st hst
    constructor
    · simp [stepGap, ble_temp_gap_event, hst]
    · simp [ble_temp_gap_event, hst]

/-- Witness for C3: a failed connect (status 7) in `Advertising` keeps the
machine in `Advertising` and the handler does call advertise again. -/
theorem connected_entry_safety_witness :
    stepGap ConnState.Advertising (GapEvent.connect 7) =
      ConnState.Advertising ∧
    (ble_temp_gap_event (GapEvent.connect 7)).advertiseCalled = true :=
  connected_entry_safety.2.2 7 (by decide)

/-- C10: the buffer-full flush resets only `write_index`: the post-state
of a flushing tick keeps exactly the array that was just reported (slot 9
holding the new sample, slots 0..8 untouched), the index returns to 0, and
any tick — flushing or not — replaces exactly the one slot at the current
index, leaving the rest to be overwritten only by later appends. -/
theorem flush_resets_only_index (s : SamplerState) (v : Int)
    (h9 : s.index = 9) :
    (tick v s).report = some ((tick v s).state.readings) ∧
    (tick v s).state.readings = s.readings.set s.index v ∧
    (tick v s).state.index = 0 ∧
    (∀ (w : Int) (t : SamplerState),
      (tick w t).state.readings = t.readings.set t.index w) := by
  have ht := tick_flush v s h9
  refine ⟨?_, ?_, ?_, ?_⟩
  · rw [ht]
  · rw [ht, h9]
  · rw [ht]
  · intro w t
    simp only [tick]
    split <;> rfl

/-- Witness for C10: a flush out of a concrete full buffer reports the
post-state array and resets the index. -/
theorem flush_resets_only_index_witness :
    (tick 42 { readings := List.replicate 10 0, index := 9 }).report =
      some ((tick 42
        { readings := List.replicate 10 0, index := 9 }).state.readings) ∧
    (tick 42 { readings := List.replicate 10 0, index := 9 }).state.readings
      = (List.replicate 10 (0 : Int)).set 9 42 ∧
    (tick 42 { readings := List.replicate 10 0, index := 9 }).state.index
      = 0 ∧
    (∀ (w : Int) (t : SamplerState),
      (tick w t).state.readings = t.readings.set t.index w) :=
  flush_resets_only_index { readings := List.replicate 10 0, index := 9 }
    42 rfl

end BleTempSensor
